import Mathlib

/-!
# Verification model of `infoscreen.py`

A shallow embedding of the single-script OLED info-screen controller:
the global mutable state, the button handler `btn_press`, the LED toggle,
the per-iteration body of the main `while True` loop (with exception flow
made explicit through `Except`), the background edge-event watcher's
filtering, and the control-flow skeleton of the whole program.

Conventions:
* Wall-clock times (`time.time()` values) are rationals (Python floats are
  real-valued readings; no claim depends on float rounding).
* Python `int(x)` is truncation toward zero, modelled by `pyInt`.
* A Python exception escaping a region is `Except.error ()`; a `try/except:
  pass` block is modelled by catching and discarding that error exactly
  around the calls the source wraps.
* Calls into the outside world (telemetry queries, display-bus operations)
  are modelled by their outcome for the iteration under scrutiny, supplied
  in an `Env` record: `.ok v` when the call returns `v`, `.error ()` when it
  raises.
-/

set_option autoImplicit false

namespace Infoscreen

/-- Python `int()` on a real-valued reading: truncation toward zero. -/
def pyInt (q : ℚ) : ℤ := if q < 0 then -⌊-q⌋ else ⌊q⌋

/-- Constant `BTN_PIN = 27` (infoscreen.py line 95). -/
def BTN_PIN : ℕ := 27

/-- Constant `LED_PIN = 22` (line 96). -/
def LED_PIN : ℕ := 22

/-- Constant `DISP_TIMEOUT = 15` seconds (line 101). -/
def DISP_TIMEOUT : ℚ := 15

/-- The script's global mutable variables: `menu_state` (line 104),
`disp_timer` (line 100), `last_second` (line 176), `LED_state` (line 97). -/
structure Globals where
  menu_state : ℕ
  disp_timer : ℚ
  last_second : ℤ
  LED_state : Bool
deriving DecidableEq

/-- The globals as they stand when the main loop is first entered:
`menu_state = 0`, `disp_timer = 0` (line 100 — the literal zero; nothing
before the loop ever assigns `time.time()` to it), `last_second = -1`
(line 176), `LED_state = False` (line 97). -/
def startupState : Globals :=
  { menu_state := 0, disp_timer := 0, last_second := -1, LED_state := false }

/-- Handler `btn_press()` (lines 156–165).  The handler reads `time.time()` for the
timeout test and again for the reset of `disp_timer`; both readings are
modelled as the single press instant `now`.

```
if time.time()-disp_timer >= DISP_TIMEOUT:
  menu_state = 0
else:
  menu_state += 1
  if menu_state == 3:
    menu_state = 0
disp_timer = time.time()
``` -/
def btn_press (now : ℚ) (s : Globals) : Globals :=
  if now - s.disp_timer ≥ DISP_TIMEOUT then
    { s with menu_state := 0, disp_timer := now }
  else
    let m := s.menu_state + 1
    { s with menu_state := if m = 3 then 0 else m, disp_timer := now }

/-- The LED block of the main loop (lines 197–199):

```
if LED_state != int(time.time()) % 2:
  LED_state = not LED_state
  set_line_value(chip_path, LED_PIN, LED_state)
```

Python compares the boolean to the integer with `True == 1`, `False == 0`.
Returns the new `LED_state` and whether it flipped (i.e. whether the GPIO
line was driven). -/
def ledStep (now : ℚ) (led : Bool) : Bool × Bool :=
  if led ≠ decide (pyInt now % 2 = 1) then (!led, true) else (led, false)

/-- Returns `true` iff the `Except` value models a call that returned normally. -/
def isOkB {α : Type} : Except Unit α → Bool
  | .ok _ => true
  | .error _ => false

/-- Outcomes of the seven host-telemetry queries of one render cycle
(lines 219–227 and 239–241), each already formatted as the string the
screen would show: `.ok v` models a query that returned `v`, `.error ()`
a query that raised. -/
structure Telemetry where
  hostname : Except Unit String
  ip : Except Unit String
  cpu : Except Unit String
  mem : Except Unit String
  uptime : Except Unit String
  loadavg : Except Unit String
  temp : Except Unit String

/-- External-world outcomes for one main-loop iteration: the `time.time()`
reading (all readings within one iteration modelled as the same instant)
and the result of each display-bus call the iteration might make. -/
structure Env where
  now : ℚ
  tel : Telemetry
  showR : Except Unit Unit
  drawR : Except Unit Unit
  clearR : Except Unit Unit
  hideR : Except Unit Unit

/-- Screen 0 text (lines 231–233). -/
def infoLines (hostname ip cpu mem : String) : List String :=
  ["NAME: " ++ hostname, "IP  : " ++ ip,
   "CPU : " ++ cpu ++ "% | MEM: " ++ mem ++ "%"]

/-- Screen 1 text (lines 244–246; the source file literally contains the
bytes `Â°C` in its temperature line). -/
def page1Lines (uptime load_avg cpu_T : String) : List String :=
  ["UP  : " ++ uptime, "LOAD: " ++ load_avg, "TEMP: " ++ cpu_T ++ " Â°C"]

/-- Screen 2 text (lines 255–257). -/
def page2Lines : List String :=
  [".......Menu 2.......", "012345678901234567890123", "--No info specified--"]

/-- A `try: with canvas(disp) as draw: ... except: pass` block: if the draw
call raises, the exception is swallowed and nothing is drawn this cycle. -/
def tryCanvas (drawR : Except Unit Unit) (lines : List String) : Option (List String) :=
  match drawR with
  | .ok _ => some lines
  | .error _ => none

/-- The active-display rendering section (lines 216–259).  The three
`if menu_state == k` tests are mutually exclusive, written here as a chain.
The telemetry queries (lines 219–227 for screen 0, 239–241 for screen 1)
are *not* inside any `try`, so their errors propagate; only the canvas
draws are wrapped (lines 229–235, 242–248, 253–259).  Returns the lines
drawn, or `none` when no draw happened. -/
def activeRender (menu : ℕ) (e : Env) : Except Unit (Option (List String)) := do
  if menu = 0 then
    let hostname ← e.tel.hostname
    let ip ← e.tel.ip
    let cpu ← e.tel.cpu
    let mem ← e.tel.mem
    pure (tryCanvas e.drawR (infoLines hostname ip cpu mem))
  else if menu = 1 then
    let uptime ← e.tel.uptime
    let load_avg ← e.tel.loadavg
    let cpu_T ← e.tel.temp
    pure (tryCanvas e.drawR (page1Lines uptime load_avg cpu_T))
  else if menu = 2 then
    pure (tryCanvas e.drawR page2Lines)
  else
    pure none

/-- Observable effects of one main-loop iteration, beyond the new globals:
whether `disp.show()` succeeded, what a successful canvas draw drew,
whether `disp.clear()` and `disp.hide()` succeeded. -/
structure IterOut where
  st : Globals
  shown : Bool
  drew : Option (List String)
  cleared : Bool
  hidden : Bool
deriving DecidableEq

/-- One iteration of the body of `while True:` (lines 192–268).
`Except.error ()` is an exception escaping the iteration body (crashing the
loop, since the body has no enclosing handler).

* lines 197–199: LED toggle;
* line 203: `this_second = int(time.time() - disp_timer)`;
* line 205: second-boundary test;
* line 209: activity test `time.time() - disp_timer < DISP_TIMEOUT`;
* lines 211–214: `try: disp.show() except: pass` — failure swallowed;
* lines 216–259: rendering (see `activeRender`);
* lines 261–266: `try: disp.clear(); disp.hide() except: pass` — if the
  clear raises, the hide is not reached; either failure is swallowed. -/
def loopIter (e : Env) (s : Globals) : Except Unit IterOut := do
  let led := (ledStep e.now s.LED_state).1
  let this_second := pyInt (e.now - s.disp_timer)
  if this_second ≠ s.last_second then
    if e.now - s.disp_timer < DISP_TIMEOUT then do
      let drew ← activeRender s.menu_state e
      pure { st := { s with LED_state := led, last_second := this_second },
             shown := isOkB e.showR, drew := drew,
             cleared := false, hidden := false }
    else
      pure { st := { s with LED_state := led, last_second := this_second },
             shown := false, drew := none,
             cleared := isOkB e.clearR,
             hidden := isOkB e.clearR && isOkB e.hideR }
  else
    pure { st := { s with LED_state := led },
           shown := false, drew := none, cleared := false, hidden := false }

/-- All seven telemetry queries of `e` return normally. -/
def telAllOk (t : Telemetry) : Bool :=
  isOkB t.hostname && isOkB t.ip && isOkB t.cpu && isOkB t.mem &&
  isOkB t.uptime && isOkB t.loadavg && isOkB t.temp

/-! ### Background edge watcher (lines 121–138) -/

/-- Edge direction of a reported GPIO event. -/
inductive EdgeKind where
  | rising
  | falling
deriving DecidableEq

/-- One edge event as delivered by `request.read_edge_events()`. -/
structure EdgeEvent where
  line_offset : ℕ
  event_type : EdgeKind
deriving DecidableEq

/-- Hardware edge-detection configuration requested for the button line. -/
inductive EdgeSetting where
  | rising
  | falling
  | both
deriving DecidableEq

/-- Line 123: `edge_detection = Edge.BOTH`. -/
def watcherEdgeSetting : EdgeSetting := .both

/-- Line 124: `debounce_period = timedelta(milliseconds = 12)`. -/
def watcherDebounceMs : ℕ := 12

/-- The filter on line 137: the callback fires iff the event is on
`BTN_PIN` and is a falling edge. -/
def handlesEvent (ev : EdgeEvent) : Bool :=
  decide (ev.line_offset = BTN_PIN) && decide (ev.event_type = EdgeKind.falling)

/-- The watcher's event loop (lines 135–138) over a batch of timestamped
edge events: each qualifying event invokes `btn_press` at its press time;
every other event is ignored.  Returns the final globals and how many
times the callback was invoked. -/
def watchEvents : List (ℚ × EdgeEvent) → Globals → Globals × ℕ
  | [], s => (s, 0)
  | te :: evs, s =>
    if handlesEvent te.2 then
      let r := watchEvents evs (btn_press te.1 s)
      (r.1, r.2 + 1)
    else
      watchEvents evs s

/-! ### Whole-program control skeleton (lines 192–270) -/

/-- The loop condition of `while True:` (line 192). -/
def loopCond (_ : Globals) : Bool := true

/-- Control location of the foreground thread: inside the loop with the
current globals, terminated by an uncaught exception, or past the loop at
the `GPIO.cleanup()` statement (line 270). -/
inductive Ctrl where
  | inLoop (s : Globals)
  | crashed
  | afterLoop
deriving DecidableEq

/-- One scheduling step of the foreground thread.  A normal exit from the
loop would require `loopCond` to be false; an uncaught exception in the
body terminates the thread without ever reaching the statement after the
loop. -/
def progStep (e : Env) : Ctrl → Ctrl
  | .inLoop s =>
    if loopCond s then
      match loopIter e s with
      | .ok out => .inLoop out.st
      | .error _ => .crashed
    else .afterLoop
  | .crashed => .crashed
  | .afterLoop => .afterLoop

/-- Run the foreground thread through a sequence of iteration environments. -/
def runProg (es : List Env) (c : Ctrl) : Ctrl :=
  es.foldl (fun c e => progStep e c) c

/-- The `GPIO.cleanup()` statement (line 270) executes iff control reaches
the location after the loop. -/
def cleanupReached : Ctrl → Bool
  | .afterLoop => true
  | _ => false

/-! ### LED sampling runs (for the heartbeat claims) -/

/-- Predicate `chainB t ts`: the sample instants `ts` follow `t` in order with
consecutive gaps of at most `1/5` second (sampling at 5 Hz or faster). -/
def chainB : ℚ → List ℚ → Bool
  | _, [] => true
  | t, u :: us => decide (t ≤ u) && decide (u ≤ t + 1/5) && chainB u us

/-- Last sample instant of a run starting at `t`. -/
def lastT : ℚ → List ℚ → ℚ
  | t, [] => t
  | _, u :: us => lastT u us

/-- Number of LED flips over a run of samples, threading the LED state
through `ledStep` at each sample instant. -/
def ledFlips : Bool → List ℚ → ℕ
  | _, [] => 0
  | led, t :: ts => (if (ledStep t led).2 then 1 else 0) + ledFlips (ledStep t led).1 ts

/-- A sequence of presses at the given instants, applied through `btn_press`. -/
def pressSeq (ps : List ℚ) (s : Globals) : Globals :=
  ps.foldl (fun st t => btn_press t st) s

/-! ### Concrete scenarios -/

/-- Sample telemetry with every query succeeding. -/
def telOkSample : Telemetry :=
  { hostname := .ok "pi", ip := .ok "192.168.0.2", cpu := .ok " 42",
    mem := .ok "37", uptime := .ok "1:02:03",
    loadavg := .ok "0.10,0.20,0.30", temp := .ok "45.1" }

/-- Iteration environment at instant `now` with every external call
succeeding. -/
def envAt (now : ℚ) : Env :=
  { now := now, tel := telOkSample, showR := .ok (), drawR := .ok (),
    clearR := .ok (), hideR := .ok () }

/-- Iteration environment at instant `now` where only the CPU-temperature
query (`vcgencmd measure_temp` parsing, line 241) raises. -/
def envTempFail (now : ℚ) : Env :=
  { now := now, tel := { telOkSample with temp := .error () },
    showR := .ok (), drawR := .ok (), clearR := .ok (), hideR := .ok () }

/-- Iteration environment at instant `now` where every display-bus call
raises but all telemetry succeeds. -/
def envDispFail (now : ℚ) : Env :=
  { now := now, tel := telOkSample, showR := .error (), drawR := .error (),
    clearR := .error (), hideR := .error () }

/-- State with Page 1 selected and the last press 10 seconds before
instant 20. -/
def stPage1 : Globals :=
  { menu_state := 1, disp_timer := 10, last_second := -1, LED_state := false }

/-! ## Theorems -/

theorem btn_press_menu_lt (now : ℚ) (s : Globals) (h : s.menu_state < 3) :
    (btn_press now s).menu_state < 3 := by
  unfold btn_press
  split
  · simp
  · simp only
    split <;> omega

/-- C1: a press at time `now` resets `menu_state` to 0 when
`now - disp_timer ≥ 15`, advances it by one modulo 3 otherwise (for the
in-range values `menu_state` actually takes), and in both branches sets
`disp_timer` to the press time, so immediate repeated presses keep
resetting the timer. -/
theorem btn_press_spec (now : ℚ) (s : Globals) :
    (now - s.disp_timer ≥ DISP_TIMEOUT → (btn_press now s).menu_state = 0) ∧
    (now - s.disp_timer < DISP_TIMEOUT → s.menu_state < 3 →
      (btn_press now s).menu_state = (s.menu_state + 1) % 3) ∧
    (btn_press now s).disp_timer = now := by
  refine ⟨?_, ?_, ?_⟩
  · intro h
    simp [btn_press, h]
  · intro h hm
    rw [btn_press, if_neg (not_le.mpr h)]
    simp only
    split <;> omega
  · by_cases h : now - s.disp_timer ≥ DISP_TIMEOUT <;> simp [btn_press, h]

/-- Witness for C1: a press at `now = 20` on state
`⟨menu 1, timer 10, -1, false⟩` is inside the active window, advances the
menu to `(1+1) % 3` and resets the timer to 20. -/
theorem btn_press_spec_witness :
    ((20 : ℚ) - (Globals.mk 1 10 (-1) false).disp_timer < DISP_TIMEOUT) ∧
    (btn_press 20 (Globals.mk 1 10 (-1) false)).menu_state = (1 + 1) % 3 ∧
    (btn_press 20 (Globals.mk 1 10 (-1) false)).disp_timer = 20 :=
  ⟨by norm_num [DISP_TIMEOUT],
   (btn_press_spec 20 (Globals.mk 1 10 (-1) false)).2.1
     (by norm_num [DISP_TIMEOUT]) (by norm_num),
   (btn_press_spec 20 (Globals.mk 1 10 (-1) false)).2.2⟩

/-- C2: starting from any state whose `menu_state` is already in
`{0,1,2}` (such as the initial state, whose `menu_state` is 0), every
sequence of presses keeps `menu_state` in `{0,1,2}`; a press inside the
active window wraps 2 to 0; and a press with `now - disp_timer ≥ 15`
yields `menu_state = 0` regardless of the prior value. -/
theorem menu_state_invariant (ps : List ℚ) (s : Globals) (h : s.menu_state < 3) :
    (pressSeq ps s).menu_state < 3 ∧
    (∀ (t : ℚ) (u : Globals), u.menu_state = 2 → t - u.disp_timer < DISP_TIMEOUT →
      (btn_press t u).menu_state = 0) ∧
    (∀ (t : ℚ) (u : Globals), t - u.disp_timer ≥ DISP_TIMEOUT →
      (btn_press t u).menu_state = 0) := by
  refine ⟨?_, ?_, ?_⟩
  · induction ps generalizing s with
    | nil => exact h
    | cons t ts ih =>
      exact ih (btn_press t s) (btn_press_menu_lt t s h)
  · intro t u h2 hlt
    rw [btn_press, if_neg (not_le.mpr hlt)]
    simp [h2]
  · intro t u hge
    simp [btn_press, hge]

/-- Witness for C2: the spec's end-to-end scenario, pressing at
`t = 5, 8, 25` from the initial state, stays within `{0,1,2}`. -/
theorem menu_state_invariant_witness :
    startupState.menu_state < 3 ∧ (pressSeq [5, 8, 25] startupState).menu_state < 3 :=
  ⟨by norm_num [startupState],
   (menu_state_invariant [5, 8, 25] startupState (by norm_num [startupState])).1⟩

theorem pyInt_eq_floor {q : ℚ} (h : 0 ≤ q) : pyInt q = ⌊q⌋ := by
  rw [pyInt, if_neg (not_lt.mpr h)]

/-- C10: the LED step is self-synchronizing — after the LED block of any
iteration at time `now ≥ 0`, `LED_state` equals the parity of `⌊now⌋`
(true exactly when `⌊now⌋` is odd), regardless of the LED state before
the step. -/
theorem led_self_sync (now : ℚ) (led : Bool) (h : 0 ≤ now) :
    (ledStep now led).1 = decide (⌊now⌋ % 2 = 1) := by
  simp only [ledStep, pyInt_eq_floor h]
  cases led <;> by_cases h2 : ⌊now⌋ % 2 = 1 <;> simp [h2]

/-- Witness for C10: stepping at `now = 3` from LED off lands on
`decide (⌊3⌋ % 2 = 1)`, i.e. on. -/
theorem led_self_sync_witness :
    (0 : ℚ) ≤ 3 ∧ (ledStep 3 false).1 = decide (⌊(3 : ℚ)⌋ % 2 = 1) :=
  ⟨by norm_num, led_self_sync 3 false (by norm_num)⟩

theorem ledStep_flip_iff (t : ℚ) (led : Bool) :
    (ledStep t led).2 = true ↔ led ≠ decide (pyInt t % 2 = 1) := by
  unfold ledStep
  by_cases h : led = decide (pyInt t % 2 = 1) <;> simp [h]

theorem ledStep_self_sync_aux (u : ℚ) (led : Bool) (hu : 0 ≤ u) :
    (ledStep u led).1 = decide (⌊u⌋ % 2 = 1) := by
  simp only [ledStep, pyInt_eq_floor hu]
  cases led <;> by_cases h2 : ⌊u⌋ % 2 = 1 <;> simp [h2]

theorem ledFlips_eq (ts : List ℚ) : ∀ (t : ℚ) (led : Bool), 0 ≤ t →
    led = decide (⌊t⌋ % 2 = 1) → chainB t ts = true →
    (ledFlips led ts : ℤ) = ⌊lastT t ts⌋ - ⌊t⌋ := by
  induction ts with
  | nil =>
    intro t led _ _ _
    simp [ledFlips, lastT]
  | cons u us ih =>
    intro t led ht hled hch
    simp only [chainB, Bool.and_eq_true, decide_eq_true_eq] at hch
    obtain ⟨⟨htu, hu5⟩, hch⟩ := hch
    have hu : 0 ≤ u := le_trans ht htu
    have hfl : ⌊t⌋ ≤ ⌊u⌋ := Int.floor_le_floor htu
    have hfu : ⌊u⌋ ≤ ⌊t⌋ + 1 := by
      have hle : u ≤ t + 1 := le_trans hu5 (by linarith)
      calc ⌊u⌋ ≤ ⌊t + 1⌋ := Int.floor_le_floor hle
        _ = ⌊t⌋ + 1 := Int.floor_add_one t
    have hflip : (ledStep u led).2 = true ↔ ¬ (⌊t⌋ % 2 = 1 ↔ ⌊u⌋ % 2 = 1) := by
      rw [ledStep_flip_iff, pyInt_eq_floor hu, hled, Ne, decide_eq_decide]
    have IH := ih u (ledStep u led).1 hu (ledStep_self_sync_aux u led hu) hch
    rcases (by omega : ⌊u⌋ = ⌊t⌋ ∨ ⌊u⌋ = ⌊t⌋ + 1) with he | he
    · have hnf : (ledStep u led).2 = false := by
        rw [Bool.eq_false_iff, Ne, hflip]
        simp [he]
      simp only [ledFlips, lastT, hnf, if_neg Bool.false_ne_true]
      push_cast
      omega
    · have hf : (ledStep u led).2 = true := hflip.mpr (by omega)
      simp only [ledFlips, lastT, hf, if_pos rfl]
      push_cast
      omega

/-- C4: (i) the LED block flips `LED_state` iff the parity of the integer
wall-clock second differs from the current `LED_state`; (ii) once the LED
is in sync with the wall clock (as it is after any step), a later step
flips iff the integer second's parity changed — not per loop iteration;
(iii) over a run of samples spanning exactly a 2-second window, taken at
5 Hz or faster from a synced start, exactly 2 flips occur. -/
theorem led_heartbeat_spec (led0 : Bool) (t0 : ℚ) (ts : List ℚ)
    (h0 : 0 ≤ t0) (hsync : led0 = decide (⌊t0⌋ % 2 = 1))
    (hch : chainB t0 ts = true) (hwin : lastT t0 ts = t0 + 2) :
    (∀ (t : ℚ) (led : Bool), ((ledStep t led).2 = true ↔ led ≠ decide (pyInt t % 2 = 1))) ∧
    (∀ (t u : ℚ) (led : Bool), 0 ≤ t → t ≤ u → led = decide (⌊t⌋ % 2 = 1) →
      ((ledStep u led).2 = true ↔ ¬ ⌊u⌋ % 2 = ⌊t⌋ % 2)) ∧
    ledFlips led0 ts = 2 := by
  refine ⟨ledStep_flip_iff, ?_, ?_⟩
  · intro t u led ht htu hled
    rw [ledStep_flip_iff, pyInt_eq_floor (le_trans ht htu), hled, Ne, decide_eq_decide]
    omega
  · have h := ledFlips_eq ts t0 led0 h0 hsync hch
    rw [hwin] at h
    rw [show (t0 + 2 : ℚ) = t0 + ((2 : ℤ) : ℚ) by push_cast; ring,
      Int.floor_add_int] at h
    omega

/-- Witness for C4: sampling `[0.2, 0.4, …, 2.0]` after a synced start at
`t0 = 0` gives exactly 2 flips. -/
theorem led_heartbeat_spec_witness :
    chainB 0 [1/5, 2/5, 3/5, 4/5, 1, 6/5, 7/5, 8/5, 9/5, 2] = true ∧
    ledFlips false [1/5, 2/5, 3/5, 4/5, 1, 6/5, 7/5, 8/5, 9/5, 2] = 2 :=
  ⟨by norm_num [chainB],
   (led_heartbeat_spec false 0 [1/5, 2/5, 3/5, 4/5, 1, 6/5, 7/5, 8/5, 9/5, 2]
     (by norm_num) (by norm_num) (by norm_num [chainB]) (by norm_num [lastT])).2.2⟩

/-- C3: on a loop iteration that crosses a whole-second boundary
(`⌊now - disp_timer⌋ ≠ last_second`, with the elapsed time non-negative as
it is whenever `disp_timer` holds a past reading), and with every external
call succeeding, the iteration's observable display effects are a function
of the single predicate `now - disp_timer < 15`: when it holds the display
is powered on and the screen selected by `menu_state` is drawn (nothing is
cleared or hidden), and when it fails the display is cleared and powered
off (nothing is shown or drawn).  The boundary instants 14.9 s and 15.1 s
are exercised by the witness. -/
theorem display_gate_spec (e : Env) (s : Globals)
    (H IP CPU MEM UP LA TP : String)
    (hh : e.tel.hostname = .ok H) (hip : e.tel.ip = .ok IP)
    (hcpu : e.tel.cpu = .ok CPU) (hmem : e.tel.mem = .ok MEM)
    (hup : e.tel.uptime = .ok UP) (hla : e.tel.loadavg = .ok LA)
    (htp : e.tel.temp = .ok TP)
    (hshow : e.showR = .ok ()) (hdraw : e.drawR = .ok ())
    (hclear : e.clearR = .ok ()) (hhide : e.hideR = .ok ())
    (hpos : 0 ≤ e.now - s.disp_timer)
    (hb : ⌊e.now - s.disp_timer⌋ ≠ s.last_second)
    (hm : s.menu_state < 3) :
    loopIter e s = .ok
      { st := { s with LED_state := (ledStep e.now s.LED_state).1,
                       last_second := ⌊e.now - s.disp_timer⌋ },
        shown := decide (e.now - s.disp_timer < DISP_TIMEOUT),
        drew := if e.now - s.disp_timer < DISP_TIMEOUT then
            some (if s.menu_state = 0 then infoLines H IP CPU MEM
              else if s.menu_state = 1 then page1Lines UP LA TP
              else page2Lines)
          else none,
        cleared := decide (¬ e.now - s.disp_timer < DISP_TIMEOUT),
        hidden := decide (¬ e.now - s.disp_timer < DISP_TIMEOUT) } := by
  have hpy : pyInt (e.now - s.disp_timer) = ⌊e.now - s.disp_timer⌋ := pyInt_eq_floor hpos
  by_cases hact : e.now - s.disp_timer < DISP_TIMEOUT
  · have hm3 : s.menu_state = 0 ∨ s.menu_state = 1 ∨ s.menu_state = 2 := by omega
    rcases hm3 with h0 | h0 | h0 <;>
      · simp [loopIter, activeRender, hpy, hb, hact, h0, hh, hip, hcpu, hmem,
          hup, hla, htp, hdraw, hshow, tryCanvas, isOkB]
        rfl
  · simp [loopIter, hpy, hb, hact, hclear, hhide, isOkB]
    rfl

/-- Witness for C3, exercising both boundary cases from the fresh-press
state `⟨0, 0, -1, false⟩`: at elapsed 14.9 s the Info screen is drawn and
nothing cleared; at elapsed 15.1 s nothing is drawn and the display is
cleared and hidden. -/
theorem display_gate_spec_witness :
    loopIter (envAt (149/10)) startupState =
      .ok { st := { startupState with
                      LED_state := (ledStep (envAt (149/10)).now startupState.LED_state).1,
                      last_second := ⌊(envAt (149/10)).now - startupState.disp_timer⌋ },
            shown := decide ((envAt (149/10)).now - startupState.disp_timer < DISP_TIMEOUT),
            drew := if (envAt (149/10)).now - startupState.disp_timer < DISP_TIMEOUT then
                some (if startupState.menu_state = 0 then
                    infoLines "pi" "192.168.0.2" " 42" "37"
                  else if startupState.menu_state = 1 then
                    page1Lines "1:02:03" "0.10,0.20,0.30" "45.1"
                  else page2Lines)
              else none,
            cleared := decide (¬ (envAt (149/10)).now - startupState.disp_timer < DISP_TIMEOUT),
            hidden := decide (¬ (envAt (149/10)).now - startupState.disp_timer < DISP_TIMEOUT) } ∧
    loopIter (envAt (151/10)) startupState =
      .ok { st := { startupState with
                      LED_state := (ledStep (envAt (151/10)).now startupState.LED_state).1,
                      last_second := ⌊(envAt (151/10)).now - startupState.disp_timer⌋ },
            shown := decide ((envAt (151/10)).now - startupState.disp_timer < DISP_TIMEOUT),
            drew := if (envAt (151/10)).now - startupState.disp_timer < DISP_TIMEOUT then
                some (if startupState.menu_state = 0 then
                    infoLines "pi" "192.168.0.2" " 42" "37"
                  else if startupState.menu_state = 1 then
                    page1Lines "1:02:03" "0.10,0.20,0.30" "45.1"
                  else page2Lines)
              else none,
            cleared := decide (¬ (envAt (151/10)).now - startupState.disp_timer < DISP_TIMEOUT),
            hidden := decide (¬ (envAt (151/10)).now - startupState.disp_timer < DISP_TIMEOUT) } :=
  ⟨display_gate_spec (envAt (149/10)) startupState
      "pi" "192.168.0.2" " 42" "37" "1:02:03" "0.10,0.20,0.30" "45.1"
      rfl rfl rfl rfl rfl rfl rfl rfl rfl rfl rfl
      (by norm_num [envAt, startupState])
      (by norm_num [envAt, startupState]) (by norm_num [startupState]),
   display_gate_spec (envAt (151/10)) startupState
      "pi" "192.168.0.2" " 42" "37" "1:02:03" "0.10,0.20,0.30" "45.1"
      rfl rfl rfl rfl rfl rfl rfl rfl rfl rfl rfl
      (by norm_num [envAt, startupState])
      (by norm_num [envAt, startupState]) (by norm_num [startupState])⟩

/-- C5 counterexample: with Page 1 selected, the display active, and only
the CPU-temperature query raising, the iteration body does *not* catch the
error — it escapes and crashes the foreground loop, contrary to the claim
that telemetry failures are caught and skipped. -/
theorem telemetry_failure_crashes :
    loopIter (envTempFail 20) stPage1 = .error () := by
  norm_num [loopIter, activeRender, envTempFail, telOkSample, stPage1, pyInt,
    DISP_TIMEOUT]
  rfl

/-- C5 amended: telemetry queries are outside every `try` block, so a
telemetry failure is *not* caught: on any second-boundary iteration with
the display active and Page 1 selected, a raising CPU-temperature query
makes the exception escape the per-iteration body (crashing the loop),
whatever the uptime and load-average queries returned; only the canvas
draw calls are guarded. -/
theorem telemetry_failure_spec (e : Env) (s : Globals)
    (hm : s.menu_state = 1)
    (hb : pyInt (e.now - s.disp_timer) ≠ s.last_second)
    (hact : e.now - s.disp_timer < DISP_TIMEOUT)
    (htp : e.tel.temp = .error ()) :
    loopIter e s = .error () := by
  cases hu : e.tel.uptime with
  | error u =>
    cases u
    simp [loopIter, activeRender, hm, hb, hact, htp, hu]
    rfl
  | ok u =>
    cases hl : e.tel.loadavg with
    | error v =>
      cases v
      simp [loopIter, activeRender, hm, hb, hact, htp, hu, hl]
      rfl
    | ok v =>
      simp [loopIter, activeRender, hm, hb, hact, htp, hu, hl]
      rfl

/-- Witness for the amended C5 at the concrete crash scenario. -/
theorem telemetry_failure_spec_witness :
    stPage1.menu_state = 1 ∧ loopIter (envTempFail 20) stPage1 = .error () :=
  ⟨rfl,
   telemetry_failure_spec (envTempFail 20) stPage1 rfl
     (by norm_num [pyInt, envTempFail, stPage1])
     (by norm_num [envTempFail, stPage1, DISP_TIMEOUT]) rfl⟩

theorem isOkB_iff {α : Type} (x : Except Unit α) :
    isOkB x = true ↔ ∃ v, x = .ok v := by
  cases x <;> simp [isOkB]

/-- C6: display-bus failures never escape the per-iteration body: whenever
the telemetry queries all succeed, the iteration returns normally — and the
loop continues to the next iteration — no matter which of the
`disp.show()`, canvas-draw, `disp.clear()` or `disp.hide()` calls raise,
because each of those call sites is wrapped in `try/except: pass`. -/
theorem display_failures_swallowed (e : Env) (s : Globals)
    (h : telAllOk e.tel = true) :
    isOkB (loopIter e s) = true := by
  simp only [telAllOk, Bool.and_eq_true] at h
  obtain ⟨⟨⟨⟨⟨⟨hh, hip⟩, hcpu⟩, hmem⟩, hup⟩, hla⟩, htp⟩ := h
  obtain ⟨H, hh⟩ := (isOkB_iff _).mp hh
  obtain ⟨IP, hip⟩ := (isOkB_iff _).mp hip
  obtain ⟨CPU, hcpu⟩ := (isOkB_iff _).mp hcpu
  obtain ⟨MEM, hmem⟩ := (isOkB_iff _).mp hmem
  obtain ⟨UP, hup⟩ := (isOkB_iff _).mp hup
  obtain ⟨LA, hla⟩ := (isOkB_iff _).mp hla
  obtain ⟨TP, htp⟩ := (isOkB_iff _).mp htp
  by_cases hgate : pyInt (e.now - s.disp_timer) ≠ s.last_second
  · by_cases hact : e.now - s.disp_timer < DISP_TIMEOUT
    · by_cases h0 : s.menu_state = 0
      · simp [loopIter, activeRender, hgate, hact, h0, hh, hip, hcpu, hmem]
        try rfl
      · by_cases h1 : s.menu_state = 1
        · simp [loopIter, activeRender, hgate, hact, h0, h1, hup, hla, htp]
          try rfl
        · by_cases h2 : s.menu_state = 2
          · simp [loopIter, activeRender, hgate, hact, h0, h1, h2]
            try rfl
          · simp [loopIter, activeRender, hgate, hact, h0, h1, h2]
            try rfl
    · simp [loopIter, hgate, hact]
      try rfl
  · simp [loopIter, hgate]
    try rfl

/-- Witness for C6: every display call raising at once, with telemetry
fine, still returns normally. -/
theorem display_failures_swallowed_witness :
    telAllOk (envDispFail 20).tel = true ∧
    isOkB (loopIter (envDispFail 20) stPage1) = true :=
  ⟨rfl, display_failures_swallowed (envDispFail 20) stPage1 rfl⟩

/-- C8 counterexample: `disp_timer` enters the main loop holding the
literal 0 from line 100, not the process start time.  At a realistic start
instant (epoch second 1 700 000 000) the very first iteration, with every
external call succeeding, finds `now - disp_timer ≥ 15`, clears and powers
off the display instead of rendering the Info screen — refuting the claim
that the display is active for the first 15 seconds of the process. -/
theorem startup_inactive_counterexample :
    startupState.disp_timer ≠ (1700000000 : ℚ) ∧
    loopIter (envAt 1700000000) startupState =
      .ok { st := { startupState with
                      LED_state := (ledStep 1700000000 false).1,
                      last_second := 1700000000 },
            shown := false, drew := none, cleared := true, hidden := true } := by
  constructor
  · norm_num [startupState]
  · have hpy : pyInt ((envAt 1700000000).now - startupState.disp_timer) = 1700000000 := by
      norm_num [pyInt, envAt, startupState]
    have hact : ¬ (envAt 1700000000).now - startupState.disp_timer < DISP_TIMEOUT := by
      norm_num [envAt, startupState, DISP_TIMEOUT]
    simp [loopIter, hpy, hact, envAt, startupState, isOkB]
    rfl

/-- C8 amended: at startup `disp_timer = 0` (the Unix epoch), so for any
process start instant at least 15 seconds past the epoch — i.e. any
realistic wall clock — the display is *inactive* from the first iteration:
nothing is shown or drawn, and the panel is cleared (and hidden when the
clear succeeds) until the first button press. -/
theorem startup_display_inactive (e : Env) (h : DISP_TIMEOUT ≤ e.now) :
    startupState.disp_timer = 0 ∧
    loopIter e startupState =
      .ok { st := { startupState with
                      LED_state := (ledStep e.now false).1,
                      last_second := ⌊e.now⌋ },
            shown := false, drew := none,
            cleared := isOkB e.clearR,
            hidden := isOkB e.clearR && isOkB e.hideR } := by
  have h15 : (15 : ℚ) ≤ e.now := by simpa [DISP_TIMEOUT] using h
  have hpos : (0 : ℚ) ≤ e.now := by linarith
  have hpy : pyInt e.now = ⌊e.now⌋ := pyInt_eq_floor hpos
  have hfl : (15 : ℤ) ≤ ⌊e.now⌋ := by
    rw [Int.le_floor]
    exact_mod_cast h15
  have hgate : ¬ pyInt e.now = -1 := by
    rw [hpy]
    omega
  have hact : ¬ e.now < DISP_TIMEOUT := not_lt.mpr h
  refine ⟨rfl, ?_⟩
  simp [loopIter, hpy, hgate, hact, startupState]
  rw [if_neg (show ¬ ⌊e.now⌋ = -1 by omega)]
  rfl

/-- Witness for the amended C8 at start instant 1 700 000 000 with all
calls succeeding. -/
theorem startup_display_inactive_witness :
    DISP_TIMEOUT ≤ (envAt 1700000000).now ∧
    (startupState.disp_timer = 0 ∧
      loopIter (envAt 1700000000) startupState =
        .ok { st := { startupState with
                        LED_state := (ledStep (envAt 1700000000).now false).1,
                        last_second := ⌊(envAt 1700000000).now⌋ },
              shown := false, drew := none,
              cleared := isOkB (envAt 1700000000).clearR,
              hidden := isOkB (envAt 1700000000).clearR &&
                isOkB (envAt 1700000000).hideR }) :=
  ⟨by norm_num [envAt, DISP_TIMEOUT],
   startup_display_inactive (envAt 1700000000) (by norm_num [envAt, DISP_TIMEOUT])⟩

/-- C7: the watcher's callback fires exactly on falling-edge events whose
line is `BTN_PIN` — rising edges and other lines are ignored — even though
the line is configured for both-edge detection in hardware; over any batch
of timestamped events, `btn_press` is invoked precisely once per
qualifying event, in order. -/
theorem watcher_filter_spec (evs : List (ℚ × EdgeEvent)) (s : Globals) :
    watcherEdgeSetting = EdgeSetting.both ∧
    (∀ ev : EdgeEvent, handlesEvent ev = true ↔
      (ev.line_offset = BTN_PIN ∧ ev.event_type = EdgeKind.falling)) ∧
    (watchEvents evs s).2 = (evs.filter (fun te => handlesEvent te.2)).length ∧
    (watchEvents evs s).1 =
      (evs.filter (fun te => handlesEvent te.2)).foldl
        (fun st te => btn_press te.1 st) s := by
  refine ⟨rfl, ?_, ?_, ?_⟩
  · intro ev
    simp [handlesEvent]
  · induction evs generalizing s with
    | nil => rfl
    | cons te evs ih =>
      by_cases h : handlesEvent te.2 <;>
        simp [watchEvents, List.filter_cons, h, ih]
  · induction evs generalizing s with
    | nil => rfl
    | cons te evs ih =>
      by_cases h : handlesEvent te.2 <;>
        simp [watchEvents, List.filter_cons, h, ih]

/-- C9: `while True:` has a constantly-true condition and its body contains
no break or return, so the only way the foreground thread leaves the loop
is an uncaught exception — which bypasses the code after the loop.  Control
therefore never reaches the `GPIO.cleanup()` statement on line 270: it is
dead code and the documented shutdown sequence never runs. -/
theorem cleanup_unreachable (es : List Env) (s : Globals) :
    loopCond s = true ∧
    cleanupReached (runProg es (Ctrl.inLoop s)) = false := by
  refine ⟨rfl, ?_⟩
  have hcr : ∀ fs : List Env, runProg fs Ctrl.crashed = Ctrl.crashed := by
    intro fs
    induction fs with
    | nil => rfl
    | cons f fs ih =>
      simpa [runProg, progStep] using ih
  induction es generalizing s with
  | nil => rfl
  | cons e es ih =>
    show cleanupReached (runProg es (progStep e (Ctrl.inLoop s))) = false
    rw [progStep]
    simp only [loopCond, if_true]
    cases hout : loopIter e s with
    | ok out => exact ih out.st
    | error u => rw [hcr es]; rfl

end Infoscreen
